import Mathlib

/-!
Shallow embedding of the car-price prediction pipeline of `src/app.py`
(class `CarPriceMLModel` plus the library calls it makes), over exact
rational arithmetic.

Modelling conventions, stated once:

* Python/numpy floating-point numbers are embedded as exact rationals.
  Numpy array division by zero does not raise: it yields `inf`/`-inf`/`nan`
  (while plain Python scalar division by zero raises `ZeroDivisionError`).
  The embedding keeps that distinction with the `PyVal` type: a cell of a
  numeric array is either a finite rational or one of the three non-finite
  floats.  Exact magnitudes of rounded float results never enter any
  theorem below.

* `sklearn.preprocessing.LabelEncoder.fit` stores `classes_ = np.unique(values)`,
  the distinct values in ascending (lexicographic, code-point) order, and
  `transform` maps a value to its index in `classes_` (raising on unseen
  values).  `leFit`/`leTransformE` embed exactly that.

* `sklearn.preprocessing.StandardScaler.fit` stores one (mean, scale) pair
  per column; `transform` computes `(x - mean) / scale` per column.  Its
  input validation rejects `inf` but allows `nan` (`force_all_finite -eq
  "allow-nan"`), and a zero-variance column gets scale 1 (sklearn's
  `_handle_zeros_in_scale`).  The true scale is the float square root of the
  column variance, an irrational number in general; no claim below depends
  on the scale's magnitude, only on it being a fixed positive rational
  determined at fit time, so the embedding stores the variance itself
  (with the zero-replaced-by-one rule) as the positive scale parameter.

* `GradientBoostingRegressor` is library code whose fitted prediction
  function is deterministic given the seed; its numeric content is opaque
  to every claim, so the fitted function is a parameter `gbFit` of the
  training embedding and a plain function field of `Ensemble`.  Its
  `fit`/`predict` input validation rejects every non-finite value
  (`check_array` with `force_all_finite -eq True`), which is embedded.

* `create_training_data` (lines 56-113) draws the corpus from numpy's
  seeded Mersenne Twister through floating-point samplers (`exponential`,
  `uniform`, `normal`); those samplers are not reproducible in exact
  arithmetic, so the training corpus is a parameter of the training
  embedding and every theorem quantifies over it.  Likewise the seeded
  shuffle of `train_test_split` is passed as an index permutation.

* `pickle.dump`/`pickle.load` round-trip every stored value; the snapshot
  is embedded as a record of the eight entries written by `save`
  (lines 233-242), with `Option` marking the two keys that `load` reads
  through `dict.get` with a default (lines 267-268).
-/

/-
Batteries marks the arithmetic operations of `Rat` as `@[irreducible]`,
which blocks evaluation of concrete pipeline runs inside `decide` proofs;
restore the default reducibility so that closed rational computations
reduce.  (The kernel is unaffected either way.)
-/
set_option allowUnsafeReducibility true
attribute [semireducible] Rat.add Rat.mul Rat.sub Rat.inv Rat.ofScientific

/-- Decidable equality of an exception-or-value outcome. -/
instance {ε α : Type} [DecidableEq ε] [DecidableEq α] : DecidableEq (Except ε α) :=
  fun a b =>
    match a, b with
    | .ok x, .ok y =>
        if h : x = y then .isTrue (by rw [h])
        else .isFalse (fun he => h (Except.ok.inj he))
    | .error x, .error y =>
        if h : x = y then .isTrue (by rw [h])
        else .isFalse (fun he => h (Except.error.inj he))
    | .ok _, .error _ => .isFalse (fun he => Except.noConfusion he)
    | .error _, .ok _ => .isFalse (fun he => Except.noConfusion he)

/-- A numeric cell of a numpy array / pandas column: a finite rational or
one of the non-finite IEEE values that numpy produces instead of raising. -/
inductive PyVal where
  | fin : ℚ → PyVal
  | posInf : PyVal
  | negInf : PyVal
  | nan : PyVal
deriving DecidableEq, Repr

/-- Exceptions raised by the pipeline code or the libraries it calls,
by Python exception kind (messages dropped). `untrainedModelError` is the
`ValueError("Model not trained")` raised at line 197. -/
inductive PyErr where
  | untrainedModelError : PyErr
  | valueError : PyErr
  | zeroDivisionError : PyErr
  | keyError : PyErr
  | notFittedError : PyErr
  | indexError : PyErr
  | attributeError : PyErr
deriving DecidableEq, Repr

/-- Numpy array division `a / b` on finite operands: yields a non-finite
float instead of raising when `b = 0` (sign of `a` picks `inf`, `-inf` or
`nan`). -/
def qdiv (a b : ℚ) : PyVal :=
  if b = 0 then (if 0 < a then .posInf else if a < 0 then .negInf else .nan)
  else .fin (a / b)

/-- Subtraction of a finite scalar from a cell, as numpy broadcasts it:
non-finite cells stay what they are. -/
def pSub (v : PyVal) (m : ℚ) : PyVal :=
  match v with
  | .fin q => .fin (q - m)
  | x => x

/-- Division of a cell by a positive finite scale, as numpy broadcasts it:
non-finite cells stay what they are (the scale is positive by
construction, so the sign of an infinity is preserved). -/
def pDivPos (v : PyVal) (s : ℚ) : PyVal :=
  match v with
  | .fin q => .fin (q / s)
  | x => x

/-- A cell is `inf` or `-inf`. -/
def PyVal.isInf : PyVal → Bool
  | .posInf => true
  | .negInf => true
  | _ => false

/-- A raw input record (the `car_data` dict handed to `predict`, or one
row of the training `DataFrame` minus its price column). -/
structure Row where
  brand : String
  year : ℤ
  mileage : ℚ
  fuel_type : String
  transmission : String
  engine_size : ℚ
  horsepower : ℤ
  body_type : String
  doors : ℤ
  previous_owners : ℤ
deriving DecidableEq, Repr

/-- A row after `engineer_features` (lines 115-122): the raw fields plus
`car_age`, `mileage_per_year`, `power_to_weight`.  `car_age` is integer
arithmetic; the two ratios are numpy float divisions. -/
structure EngRow where
  row : Row
  car_age : ℤ
  mileage_per_year : PyVal
  power_to_weight : PyVal
deriving DecidableEq, Repr

/-- Lines 115-122: `car_age = current_year - year`,
`mileage_per_year = mileage / (car_age + 1)`,
`power_to_weight = horsepower / engine_size`. -/
def engineerRow (cy : ℤ) (r : Row) : EngRow :=
  let age : ℤ := cy - r.year
  { row := r
    car_age := age
    mileage_per_year := qdiv r.mileage ((age : ℚ) + 1)
    power_to_weight := qdiv (r.horsepower : ℚ) r.engine_size }

/-- The `classes_` array of a fitted `LabelEncoder`: the vocabulary in
ascending order; a value's integer code is its index in this list. -/
structure EncTable where
  classes : List String
deriving DecidableEq, Repr

/-- Code-point lexicographic comparison of character lists: the order in
which Python compares strings and numpy sorts them inside `np.unique`. -/
def charListLe : List Char → List Char → Bool
  | [], _ => true
  | _ :: _, [] => false
  | a :: as, b :: bs => if a < b then true else if b < a then false else charListLe as bs

/-- Code-point lexicographic `a ≤ b` on strings (proved below to agree
with the standard linear order on `String`). -/
def strLe (a b : String) : Bool := charListLe a.toList b.toList

/-- `LabelEncoder.fit` (used at line 134): `classes_ = np.unique(values)`,
the distinct observed values in ascending code-point lexicographic
order. -/
def leFit (vs : List String) : EncTable :=
  ⟨List.insertionSort (fun a b => strLe a b = true) vs.dedup⟩

/-- `LabelEncoder.transform` on one value: its index in `classes_`;
raises `ValueError` on a value outside the fitted vocabulary. -/
def leTransformE (t : EncTable) (v : String) : Except PyErr ℕ :=
  if v ∈ t.classes then .ok (t.classes.indexOf v) else .error .valueError

/-- Lines 136-140, the inference path: a value absent from the fitted
vocabulary is replaced by `classes_[0]` (raising `IndexError` on an empty
vocabulary) before `transform` runs. -/
def leTransformInfer (t : EncTable) (v : String) : Except PyErr ℕ :=
  match t.classes with
  | [] => .error .indexError
  | c0 :: _ => leTransformE t (if v ∈ t.classes then v else c0)

/-- Fitted `StandardScaler` parameters: one (mean, scale) pair per feature
column, scale positive (see the header note on the square root). -/
structure ScalerParams where
  stats : List (ℚ × ℚ)
deriving DecidableEq, Repr

/-- Holdout metrics dict built at lines 177-181. -/
structure Metrics where
  mae : ℚ
  r2 : ℚ
  accuracy : ℚ
deriving DecidableEq, Repr

/-- The `GradientBoostingRegressor`: the constructor arguments of lines
165-170 plus, once `fit` has run, the fitted prediction function. -/
structure Ensemble where
  nEstimators : ℕ
  learningRate : ℚ
  maxDepth : ℕ
  randomState : ℕ
  fittedF : Option (List ℚ → ℚ)

/-- Line 165: a freshly constructed, not yet fitted regressor. -/
def unfittedGBR : Ensemble :=
  { nEstimators := 200, learningRate := 1/10, maxDepth := 5, randomState := 42
    fittedF := none }

/-- The mutable attributes of a `CarPriceMLModel` instance
(lines 46-54). `scaler = none` models the unfitted `StandardScaler()`;
`metrics = none` the empty dict; `last_trained = none` Python `None`. -/
structure ModelState where
  model : Option Ensemble
  scaler : Option ScalerParams
  label_encoders : List (String × EncTable)
  feature_names : Option (List String)
  metrics : Option Metrics
  is_trained : Bool
  model_version : String
  last_trained : Option String

/-- `__init__` (lines 46-54). -/
def initialState : ModelState :=
  { model := none, scaler := none, label_encoders := [], feature_names := none
    metrics := none, is_trained := false, model_version := "1.0.0"
    last_trained := none }

/-- Write one key of the `label_encoders` dict (insertion order kept,
existing key overwritten, as a Python dict does). -/
def dictSet (m : List (String × EncTable)) (k : String) (v : EncTable) :
    List (String × EncTable) :=
  match m with
  | [] => [(k, v)]
  | (k', v') :: rest =>
      if k' = k then (k, v) :: rest else (k', v') :: dictSet rest k v

/-- Read one key of the `label_encoders` dict. -/
def dictGet (m : List (String × EncTable)) (k : String) : Option EncTable :=
  match m with
  | [] => none
  | (k', v') :: rest => if k' = k then some v' else dictGet rest k

/-- Line 128: the four categorical columns, in loop order. -/
def catCols : List String := ["brand", "fuel_type", "transmission", "body_type"]

/-- The value a row holds in a categorical column. -/
def colValue (r : Row) (c : String) : String :=
  if c = "brand" then r.brand
  else if c = "fuel_type" then r.fuel_type
  else if c = "transmission" then r.transmission
  else r.body_type

/-- Lines 130-134 in training mode: fit one `LabelEncoder` per categorical
column over that column of the corpus, writing each into
`self.label_encoders` in loop order. -/
def fitEncoders (st : ModelState) (df : List Row) : ModelState :=
  catCols.foldl
    (fun s c =>
      { s with label_encoders := dictSet s.label_encoders c (leFit (df.map (colValue · c))) })
    st

/-- Column order of the preprocessed feature matrix: the ten raw columns in
dict insertion order, then the three engineered columns appended by
`engineer_features` (the `price` column, present only during training, is
carried separately). -/
def colOrder : List String :=
  ["brand", "year", "mileage", "fuel_type", "transmission", "engine_size",
   "horsepower", "body_type", "doors", "previous_owners",
   "car_age", "mileage_per_year", "power_to_weight"]

/-- Encode one engineered row into the 13-column numeric feature vector,
using the encoder table of each categorical column from the state
(`KeyError` if a column has no encoder — a dict lookup on the untrained
dict). Training mode uses plain `transform`; inference mode the
unseen-value fallback of lines 136-140. -/
def encodeRow (st : ModelState) (isTraining : Bool) (er : EngRow) :
    Except PyErr (List PyVal) := do
  let enc : String → Except PyErr ℕ := fun c =>
    match dictGet st.label_encoders c with
    | none => .error .keyError
    | some t =>
        if isTraining then leTransformE t (colValue er.row c)
        else leTransformInfer t (colValue er.row c)
  let b ← enc "brand"
  let ft ← enc "fuel_type"
  let tr ← enc "transmission"
  let bt ← enc "body_type"
  .ok [.fin (b : ℚ), .fin (er.row.year : ℚ), .fin er.row.mileage, .fin (ft : ℚ),
       .fin (tr : ℚ), .fin er.row.engine_size, .fin (er.row.horsepower : ℚ),
       .fin (bt : ℚ), .fin (er.row.doors : ℚ), .fin (er.row.previous_owners : ℚ),
       .fin (er.car_age : ℚ), er.mileage_per_year, er.power_to_weight]

/-- `preprocess` (lines 124-142): engineer features, then encode the four
categorical columns — fitting fresh encoders into the state in training
mode, reading the fitted ones (with unseen fallback) in inference mode.
Returns the numeric matrix and the state as the method leaves it. -/
def preprocessS (st : ModelState) (cy : ℤ) (df : List Row) (isTraining : Bool) :
    Except PyErr (List (List PyVal)) × ModelState :=
  let dfE := df.map (engineerRow cy)
  if isTraining then
    let st' := fitEncoders st df
    (dfE.mapM (encodeRow st' true), st')
  else
    (dfE.mapM (encodeRow st false), st)

/-- Arithmetic mean of a rational list (callers guarantee nonemptiness). -/
def meanQ (l : List ℚ) : ℚ := l.sum / l.length

/-- Population variance of a rational list, as `StandardScaler` computes it. -/
def varQ (l : List ℚ) : ℚ := ((l.map (fun x => (x - meanQ l) ^ 2)).sum) / l.length

/-- The finite entries of column `j` of a matrix (`nan` is skipped by the
scaler's nan-aware mean/variance; `inf` was rejected before this runs). -/
def finiteCol (rows : List (List PyVal)) (j : ℕ) : List ℚ :=
  rows.filterMap fun r =>
    match r.getD j (.fin 0) with
    | .fin q => some q
    | _ => none

/-- Number of feature columns. -/
def nCols : ℕ := 13

/-- `StandardScaler.fit` (line 162): rejects an empty matrix and any `inf`
(`check_array`, allow-nan mode), then stores a (mean, scale) pair per
column, a zero-variance column getting scale 1. -/
def scalerFit (rows : List (List PyVal)) : Except PyErr ScalerParams :=
  if rows.isEmpty then .error .valueError
  else if rows.any (fun r => r.any PyVal.isInf) then .error .valueError
  else
    .ok ⟨(List.range nCols).map fun j =>
      (meanQ (finiteCol rows j),
       if varQ (finiteCol rows j) = 0 then 1 else varQ (finiteCol rows j))⟩

/-- `StandardScaler.transform` (lines 163 and 202): rejects `inf`
(allow-nan mode) and a column-count mismatch, then standardizes each cell
with the fitted (mean, scale) of its column (`nan` propagates). -/
def scalerTransform (p : ScalerParams) (rows : List (List PyVal)) :
    Except PyErr (List (List PyVal)) :=
  if rows.any (fun r => r.any PyVal.isInf) then .error .valueError
  else if rows.any (fun r => r.length ≠ p.stats.length) then .error .valueError
  else .ok (rows.map fun r =>
    (r.zip p.stats).map fun vp => pDivPos (pSub vp.1 vp.2.1) vp.2.2)

/-- `check_array` in strict mode, as `GradientBoostingRegressor.fit` and
`.predict` run it: every cell must be finite. -/
def checkFiniteRows (rows : List (List PyVal)) : Except PyErr (List (List ℚ)) :=
  rows.mapM fun r =>
    r.mapM fun v =>
      match v with
      | .fin q => Except.ok q
      | _ => Except.error PyErr.valueError

/-- `model.predict` on a matrix (lines 173 and 203): raises
`NotFittedError` on an unfitted regressor, rejects non-finite input, then
applies the fitted prediction function row-wise. -/
def ensemblePredictRows (e : Ensemble) (rows : List (List PyVal)) :
    Except PyErr (List ℚ) :=
  match e.fittedF with
  | none => .error .notFittedError
  | some f => do
      let m ← checkFiniteRows rows
      .ok (m.map f)

/-- `mean_absolute_error` (line 174) over exact rationals. -/
def maeQ (y yp : List ℚ) : ℚ := meanQ ((y.zip yp).map fun a => |a.1 - a.2|)

/-- `r2_score` (line 175) over exact rationals, with sklearn's
zero-denominator convention. -/
def r2Q (y yp : List ℚ) : ℚ :=
  let ssRes := ((y.zip yp).map fun a => (a.1 - a.2) ^ 2).sum
  let ssTot := (y.map fun v => (v - meanQ y) ^ 2).sum
  if ssTot = 0 then (if ssRes = 0 then 1 else 0) else 1 - ssRes / ssTot

/-- The dict `predict` returns (lines 218-224), flattened. -/
structure PredResult where
  price : ℚ
  lower : ℚ
  upper : ℚ
  car_age : ℤ
  mileage_per_year : ℚ
  power_to_weight : ℚ
  accuracy : ℚ
  mae : ℚ
deriving DecidableEq, Repr

/-- Line 207: `max(price - 1.96 * mae, 0)`. -/
def confidenceLower (price mae : ℚ) : ℚ := max (price - 49/25 * mae) 0

/-- Line 208: `price + 1.96 * mae`. -/
def confidenceUpper (price mae : ℚ) : ℚ := price + 49/25 * mae

/-- `predict` (lines 194-228): the untrained check, then preprocess
(inference mode) → scaler transform → ensemble predict → confidence
interval → the features dict.  The features dict (lines 211-216) uses
plain Python scalar arithmetic, so a zero denominator there raises
`ZeroDivisionError`.  Returns the outcome together with the instance
state as the method leaves it. -/
def predictS (st : ModelState) (cy : ℤ) (r : Row) :
    Except PyErr PredResult × ModelState :=
  if st.is_trained = true then
    let pre := preprocessS st cy [r] false
    match pre.1 with
    | .error e => (.error e, pre.2)
    | .ok rows =>
      match st.scaler with
      | none => (.error .notFittedError, pre.2)
      | some p =>
        match scalerTransform p rows with
        | .error e => (.error e, pre.2)
        | .ok scaled =>
          match st.model with
          | none => (.error .attributeError, pre.2)
          | some ens =>
            match ensemblePredictRows ens scaled with
            | .error e => (.error e, pre.2)
            | .ok prices =>
              match prices with
              | [] => (.error .indexError, pre.2)
              | price :: _ =>
                match st.metrics with
                | none => (.error .keyError, pre.2)
                | some m =>
                  if ((cy - r.year : ℤ) : ℚ) + 1 = 0 then
                    (.error .zeroDivisionError, pre.2)
                  else if r.engine_size = 0 then
                    (.error .zeroDivisionError, pre.2)
                  else
                    (.ok { price := price
                           lower := confidenceLower price m.mae
                           upper := confidenceUpper price m.mae
                           car_age := cy - r.year
                           mileage_per_year := r.mileage / (((cy - r.year : ℤ) : ℚ) + 1)
                           power_to_weight := (r.horsepower : ℚ) / r.engine_size
                           accuracy := m.accuracy
                           mae := m.mae }, pre.2)
  else (.error .untrainedModelError, st)

/-- Ceiling of `n * 0.2`, the holdout size `train_test_split` uses. -/
def nTestOf (n : ℕ) : ℕ := (n + 4) / 5

/-- `train` (lines 144-192) as a state transformer.  The synthesized
corpus, the seeded split permutation and the library's fitted prediction
function are parameters (see the header); `fitRaises` injects a failure of
the ensemble fit step (line 171), the failure mode the spec names.  The
second component is the instance state as the method leaves it — also when
an exception propagates out, since the Python method mutates `self` in
place step by step. -/
def trainS (gbFit : List (List ℚ) → List ℚ → List ℚ → ℚ) (fitRaises : Bool)
    (perm : List ℕ) (now : String) (cy : ℤ) (corpus : List (Row × ℚ))
    (st : ModelState) : Except PyErr Unit × ModelState :=
  let pre := preprocessS st cy (corpus.map Prod.fst) true
  let st1 := pre.2
  match pre.1 with
  | .error e => (.error e, st1)
  | .ok xRows =>
    let rows := xRows.zip (corpus.map Prod.snd)
    let st2 := { st1 with feature_names := some colOrder }
    let shuffled := perm.filterMap fun i => rows.get? i
    let nTest := nTestOf rows.length
    let testRows := shuffled.take nTest
    let trainRows := shuffled.drop nTest
    match scalerFit (trainRows.map Prod.fst) with
    | .error e => (.error e, st2)
    | .ok p =>
      let st3 := { st2 with scaler := some p }
      match scalerTransform p (trainRows.map Prod.fst) with
      | .error e => (.error e, st3)
      | .ok xTrS =>
        match scalerTransform p (testRows.map Prod.fst) with
        | .error e => (.error e, st3)
        | .ok xTeS =>
          let st4 := { st3 with model := some unfittedGBR }
          match checkFiniteRows xTrS with
          | .error e => (.error e, st4)
          | .ok xTrQ =>
            if fitRaises then (.error .valueError, st4)
            else
              let f := gbFit xTrQ (trainRows.map Prod.snd)
              let st5 := { st4 with model := some { unfittedGBR with fittedF := some f } }
              match ensemblePredictRows { unfittedGBR with fittedF := some f } xTeS with
              | .error e => (.error e, st5)
              | .ok yPred =>
                let mae := maeQ (testRows.map Prod.snd) yPred
                let r2 := r2Q (testRows.map Prod.snd) yPred
                (.ok (), { st5 with
                            metrics := some { mae := mae, r2 := r2, accuracy := r2 * 100 }
                            is_trained := true
                            last_trained := some now })

/-- The pickled dict written by `save` (lines 233-242), as `load` reads it
back: the two entries read through `dict.get` with a default are `Option`
so that their absence (an older snapshot) is representable. -/
structure Snapshot where
  model : Option Ensemble
  scaler : Option ScalerParams
  label_encoders : List (String × EncTable)
  feature_names : Option (List String)
  metrics : Option Metrics
  is_trained : Bool
  model_version : Option String
  last_trained : Option (Option String)

/-- The dict `save` assembles (lines 233-242): all eight keys present. -/
def saveSnap (st : ModelState) : Snapshot :=
  { model := st.model, scaler := st.scaler, label_encoders := st.label_encoders
    feature_names := st.feature_names, metrics := st.metrics
    is_trained := st.is_trained, model_version := some st.model_version
    last_trained := some st.last_trained }

/-- `save` (lines 230-253): serializes the current state unconditionally
(the method performs no trained-state check). -/
def save (st : ModelState) : Except PyErr Snapshot := .ok (saveSnap st)

/-- `load` (lines 255-274): overwrite every instance attribute from the
snapshot; `model_version` and `last_trained` fall back to `"1.0.0"` and
`"Unknown"` when their keys are absent. -/
def load (st : ModelState) (snap : Snapshot) : ModelState :=
  { model := snap.model, scaler := snap.scaler
    label_encoders := snap.label_encoders, feature_names := snap.feature_names
    metrics := snap.metrics, is_trained := snap.is_trained
    model_version := snap.model_version.getD "1.0.0"
    last_trained := snap.last_trained.getD (some "Unknown") }

/-!
Concrete fixtures used by the example/witness theorems below: a trained
state as `train()` would leave one (four fitted encoder tables in sorted
order, 13 scaler parameter pairs, a fitted ensemble, metrics), and a few
input records.
-/

/-- A fitted prediction function standing in for the fitted ensemble. -/
def egF : List ℚ → ℚ := fun _ => 20000

/-- A fitted prediction function of a second fixture whose price lands
inside the zero-clamping region of the confidence interval. -/
def egFLow : List ℚ → ℚ := fun _ => 1000

/-- A stand-in for the library's deterministic ensemble-fit result. -/
def egGbFit : List (List ℚ) → List ℚ → List ℚ → ℚ := fun _ _ _ => 20000

/-- Four fitted encoder tables, each in ascending order as `leFit` builds
them. -/
def egEncoders : List (String × EncTable) :=
  [("brand", ⟨["BMW", "Toyota"]⟩), ("fuel_type", ⟨["Diesel", "Petrol"]⟩),
   ("transmission", ⟨["Automatic", "Manual"]⟩), ("body_type", ⟨["SUV", "Sedan"]⟩)]

/-- Fitted scaler parameters: mean 0, scale 1 for each of the 13 columns. -/
def egScaler : ScalerParams := ⟨List.replicate 13 ((0 : ℚ), (1 : ℚ))⟩

/-- A trained model state. -/
def egTrained : ModelState :=
  { model := some { unfittedGBR with fittedF := some egF }
    scaler := some egScaler
    label_encoders := egEncoders
    feature_names := some colOrder
    metrics := some { mae := 1000, r2 := 9/10, accuracy := 90 }
    is_trained := true
    model_version := "1.0.0"
    last_trained := some "2025-01-01T00:00:00" }

/-- The same trained state with the low-price ensemble. -/
def egTrainedLow : ModelState :=
  { egTrained with model := some { unfittedGBR with fittedF := some egFLow } }

/-- A well-formed input record. -/
def egCar : Row :=
  { brand := "BMW", year := 2020, mileage := 30000, fuel_type := "Petrol"
    transmission := "Manual", engine_size := 2, horsepower := 150
    body_type := "Sedan", doors := 4, previous_owners := 1 }

/-- A second record whose brand sorts after the other corpus brand while
being seen first in the corpus. -/
def egCarToyota : Row :=
  { egCar with
    brand := "Toyota"
    fuel_type := "Diesel"
    transmission := "Automatic"
    body_type := "SUV"
    year := 2018
    mileage := 50000 }

/-- A record dated one year past the reference year: `car_age = -1`. -/
def egCarFuture : Row := { egCar with year := 2026 }

/-- The prediction `egTrained` produces for `egCar` at reference year 2025. -/
def egRes : PredResult :=
  { price := 20000, lower := 18040, upper := 21960, car_age := 5
    mileage_per_year := 5000, power_to_weight := 75, accuracy := 90, mae := 1000 }

/-- The prediction `egTrainedLow` produces for `egCar` at reference year
2025: the interval's lower bound is clamped to 0. -/
def egResLow : PredResult :=
  { price := 1000, lower := 0, upper := 2960, car_age := 5
    mileage_per_year := 5000, power_to_weight := 75, accuracy := 90, mae := 1000 }

/-- A two-record labeled training corpus. -/
def egCorpus : List (Row × ℚ) := [(egCarToyota, 20000), (egCar, 30000)]

/-!
Helper lemmas shared by the claim theorems.
-/

/-- Inference-mode preprocessing performs no instance mutation: the state
it hands back is the state it was given. -/
theorem preprocessS_infer_snd (st : ModelState) (cy : ℤ) (df : List Row) :
    (preprocessS st cy df false).2 = st := rfl

/-- `predict` performs no instance mutation in any branch, succeeding or
raising: the state it hands back is the state it was given. -/
theorem predictS_snd (st : ModelState) (cy : ℤ) (r : Row) :
    (predictS st cy r).2 = st := by
  simp only [predictS]
  repeat' split
  all_goals rfl

/-- Loading the snapshot `save` just wrote restores every attribute,
whatever the prior state of the loading instance was. -/
theorem load_saveSnap (prev st : ModelState) : load prev (saveSnap st) = st := rfl

/-- Every successful `predict` result carries the confidence bounds of
lines 206-209 around its own price and mae, and the three derived
features of lines 211-216 computed from the raw record. -/
theorem predictS_ok_shape (st : ModelState) (cy : ℤ) (r : Row) (res : PredResult)
    (h : (predictS st cy r).1 = .ok res) :
    res.lower = confidenceLower res.price res.mae ∧
    res.upper = confidenceUpper res.price res.mae ∧
    res.car_age = cy - r.year ∧
    res.mileage_per_year = r.mileage / (((cy - r.year : ℤ) : ℚ) + 1) ∧
    res.power_to_weight = (r.horsepower : ℚ) / r.engine_size := by
  simp only [predictS] at h
  repeat' split at h
  all_goals try exact Except.noConfusion h
  injection h with h2
  subst h2
  refine ⟨rfl, rfl, rfl, ?_, rfl⟩
  push_cast
  ring

/-- When a value lies inside the fitted vocabulary, the inference path is
plain `transform`: the fallback of lines 137-139 leaves the value alone. -/
theorem leTransformInfer_mem (t : EncTable) (v : String) (hv : v ∈ t.classes) :
    leTransformInfer t v = leTransformE t v := by
  rcases t with ⟨cl⟩
  rcases cl with _ | ⟨c0, cs⟩
  · cases hv
  · simp only [leTransformInfer]
    rw [if_pos hv]

/-!
C3.  Claim: calling `save()` in the Untrained state fails with an
UntrainedModelError rather than writing a snapshot.  The method body
(lines 230-253) contains no trained-state check, so the claim fails.
-/

/-- C3 counterexample: the freshly constructed, untrained model saves
successfully — `save` returns a snapshot (with the trained flag false)
instead of failing with an UntrainedModelError. -/
theorem c3_counterexample :
    initialState.is_trained = false ∧
    (save initialState).isOk = true ∧
    save initialState = .ok (saveSnap initialState) :=
  ⟨rfl, rfl, rfl⟩

/-- C3 (amended): `save()` performs no trained-state check: in every state,
trained or not, it succeeds and serializes the current attributes as they
are (and the written snapshot faithfully records the untrained flag and
restores the full state on load). -/
theorem c3_save_unconditional (st prev : ModelState) :
    save st = .ok (saveSnap st) ∧
    (saveSnap st).is_trained = st.is_trained ∧
    load prev (saveSnap st) = st :=
  ⟨rfl, rfl, load_saveSnap prev st⟩

/-!
C4.  Persistence round-trip: `load(save(state))` yields a state whose
`predict` returns an identical result for a fixed record and reference
year.
-/

/-- C4: for every trained state, loading the snapshot `save()` produced —
into an instance in any prior state — yields a state whose `predict`
returns exactly the result the original state returns, for every record
and reference year. -/
theorem c4_roundtrip (st prev : ModelState) (cy : ℤ) (r : Row) (snap : Snapshot)
    (ht : st.is_trained = true) (hs : save st = .ok snap) :
    (predictS (load prev snap) cy r).1 = (predictS st cy r).1 := by
  have hsnap : snap = saveSnap st := (Except.ok.inj hs).symm
  subst hsnap
  rw [load_saveSnap]

/-- C4 witness: the round trip at the concrete trained fixture. -/
theorem c4_roundtrip_witness :
    (predictS (load initialState (saveSnap egTrained)) 2025 egCar).1
      = (predictS egTrained 2025 egCar).1 :=
  c4_roundtrip egTrained initialState 2025 egCar (saveSnap egTrained) rfl rfl

/-!
C8.  `predict` on an untrained model fails with the UntrainedModelError
before any pipeline stage runs.
-/

/-- C8: in the Untrained state `predict` returns the UntrainedModelError
for every record and reference year, and leaves the state untouched; the
outcome does not depend on the record, so no pipeline stage has run. -/
theorem c8_predict_untrained (st : ModelState) (cy : ℤ) (r : Row)
    (h : st.is_trained = false) :
    predictS st cy r = (.error .untrainedModelError, st) := by
  simp [predictS, h]

/-- C8 witness: the freshly constructed model rejects a well-formed
record. -/
theorem c8_predict_untrained_witness :
    predictS initialState 2025 egCar = (.error .untrainedModelError, initialState) :=
  c8_predict_untrained initialState 2025 egCar rfl

/-!
C9.  `predict` never mutates the trained state, whether it succeeds or
raises.
-/

/-- C9: every field of the model state — encoding tables, scaler
parameters, ensemble, feature names, metrics, trained flag, version,
timestamp — is identical before and after any `predict` call, succeeding
or raising. -/
theorem c9_predict_preserves_state (st : ModelState) (cy : ℤ) (r : Row) :
    (predictS st cy r).2.label_encoders = st.label_encoders ∧
    (predictS st cy r).2.scaler = st.scaler ∧
    (predictS st cy r).2.model = st.model ∧
    (predictS st cy r).2.feature_names = st.feature_names ∧
    (predictS st cy r).2.metrics = st.metrics ∧
    (predictS st cy r).2.is_trained = st.is_trained ∧
    (predictS st cy r).2.model_version = st.model_version ∧
    (predictS st cy r).2.last_trained = st.last_trained ∧
    (predictS st cy r).2 = st := by
  have h := predictS_snd st cy r
  rw [h]
  exact ⟨rfl, rfl, rfl, rfl, rfl, rfl, rfl, rfl, rfl⟩

/-!
C10.  A record dated one year past the reference year (`car_age = -1`)
makes `predict` raise: the `mileage_per_year` entry of the features dict
(line 214) divides by zero in plain Python arithmetic, and the numpy
pipeline upstream produces a non-finite `mileage_per_year` column that the
scaler/ensemble input validation rejects; no `PredictionResult` is ever
returned.
-/

/-- C10: for every state and every record with `year = reference_year + 1`,
`predict` returns an exception, never a result. -/
theorem c10_future_year_raises (st : ModelState) (cy : ℤ) (r : Row)
    (h : r.year = cy + 1) :
    ∃ e, (predictS st cy r).1 = .error e := by
  have hy : cy - r.year = -1 := by omega
  simp only [predictS]
  repeat' split
  all_goals first
    | exact ⟨_, rfl⟩
    | (exfalso
       have hz : ((cy - r.year : ℤ) : ℚ) + 1 = 0 := by rw [hy]; norm_num
       simp_all)

/-- C10 witness: the trained fixture rejects the 2026 record at reference
year 2025. -/
theorem c10_future_year_raises_witness :
    ∃ e, (predictS egTrained 2025 egCarFuture).1 = .error e :=
  c10_future_year_raises egTrained 2025 egCarFuture (by decide)

/-!
C5.  The confidence interval of every prediction result:
`lower = max(price - 1.96*mae, 0)`, `upper = price + 1.96*mae`,
`lower ≤ price ≤ upper`, `0 ≤ lower` — also when `price - 1.96*mae` is
negative.  (1.96 is exactly 49/25.)  The mae stored by training is a mean
of absolute errors, hence nonnegative, and prices cannot be negative
(§4.6 of the spec), so both bounds' hypotheses hold for the results the
trained model produces.
-/

/-- C5: every successful `predict` result carries the interval
`[max(price - 1.96*mae, 0), price + 1.96*mae]`, and (for the nonnegative
price and mae the model produces) `lower ≤ price ≤ upper` and `0 ≤ lower`
hold — also in the clamped case where `price - 1.96*mae < 0`. -/
theorem c5_confidence_interval (st : ModelState) (cy : ℤ) (r : Row) (res : PredResult)
    (h : (predictS st cy r).1 = .ok res) (hm : 0 ≤ res.mae) (hp : 0 ≤ res.price) :
    res.lower = max (res.price - 49/25 * res.mae) 0 ∧
    res.upper = res.price + 49/25 * res.mae ∧
    res.lower ≤ res.price ∧ res.price ≤ res.upper ∧ 0 ≤ res.lower := by
  obtain ⟨hl, hu, -, -, -⟩ := predictS_ok_shape st cy r res h
  rw [confidenceLower] at hl
  rw [confidenceUpper] at hu
  refine ⟨hl, hu, ?_, ?_, ?_⟩
  · rw [hl]
    apply max_le _ hp
    linarith
  · rw [hu]
    linarith
  · rw [hl]
    exact le_max_right _ _

/-- C5 witness: a concrete prediction whose `price - 1.96*mae` is
negative, so the lower bound is clamped to 0 while the invariants hold. -/
theorem c5_confidence_interval_witness :
    (predictS egTrainedLow 2025 egCar).1 = .ok egResLow ∧
    egResLow.price - 49/25 * egResLow.mae < 0 ∧
    egResLow.lower ≤ egResLow.price ∧ egResLow.price ≤ egResLow.upper ∧
    0 ≤ egResLow.lower :=
  ⟨rfl, by norm_num [egResLow],
   (c5_confidence_interval egTrainedLow 2025 egCar egResLow rfl
      (by norm_num [egResLow]) (by norm_num [egResLow])).2.2.1,
   (c5_confidence_interval egTrainedLow 2025 egCar egResLow rfl
      (by norm_num [egResLow]) (by norm_num [egResLow])).2.2.2.1,
   (c5_confidence_interval egTrainedLow 2025 egCar egResLow rfl
      (by norm_num [egResLow]) (by norm_num [egResLow])).2.2.2.2⟩

/-!
C6.  Unseen categorical values at inference are silently replaced by the
table's code-0 (first-registered, lexicographically smallest) value.
-/

/-- C6: for every nonempty fitted table and every value outside its
vocabulary, the inference encoding returns code 0 — the code of the
table's first-registered (lowest-code) value — and does not raise. -/
theorem c6_unseen_fallback (t : EncTable) (v c0 : String) (cs : List String)
    (hc : t.classes = c0 :: cs) (hv : v ∉ t.classes) :
    leTransformInfer t v = .ok 0 ∧
    leTransformInfer t c0 = .ok 0 ∧
    ∀ e, leTransformInfer t v ≠ .error e := by
  rcases t with ⟨cl⟩
  simp only at hc
  subst hc
  have h1 : leTransformInfer ⟨c0 :: cs⟩ v = .ok 0 := by
    simp only [leTransformInfer]
    rw [if_neg hv]
    simp [leTransformE, List.indexOf_cons_self]
  refine ⟨h1, ?_, ?_⟩
  · simp only [leTransformInfer]
    rw [if_pos (List.mem_cons_self c0 cs)]
    simp [leTransformE, List.indexOf_cons_self]
  · intro e he
    rw [h1] at he
    cases he

/-- C6 witness: a brand never seen in training is encoded as the code of
the table's first entry, without an error. -/
theorem c6_unseen_fallback_witness :
    leTransformInfer ⟨["BMW", "Toyota"]⟩ "Tesla" = .ok 0 :=
  (c6_unseen_fallback ⟨["BMW", "Toyota"]⟩ "Tesla" "BMW" ["Toyota"] rfl (by decide)).1

/-!
C7.  The derived features agree, as exact formulas, between the
preprocessing path (`engineer_features`, lines 115-122) and the features
dict reported by `predict` (lines 211-216), excluding the `car_age = -1`
case (and the upstream-validated `engine_size = 0` case, for which the
ratio is undefined per §3 of the spec).
-/

/-- C7: for every record and reference year with `car_age ≠ -1` and
`engine_size ≠ 0`, both the preprocessing path and the reported prediction
features satisfy exactly `car_age = reference_year - year`,
`mileage_per_year = mileage / (car_age + 1)` and
`power_to_weight = horsepower / engine_size`. -/
theorem c7_derived_features (st : ModelState) (cy : ℤ) (r : Row) (res : PredResult)
    (hy : r.year ≠ cy + 1) (hes : r.engine_size ≠ 0)
    (h : (predictS st cy r).1 = .ok res) :
    (engineerRow cy r).car_age = cy - r.year ∧
    (engineerRow cy r).mileage_per_year = .fin (r.mileage / (((cy - r.year : ℤ) : ℚ) + 1)) ∧
    (engineerRow cy r).power_to_weight = .fin ((r.horsepower : ℚ) / r.engine_size) ∧
    res.car_age = cy - r.year ∧
    res.mileage_per_year = r.mileage / (((cy - r.year : ℤ) : ℚ) + 1) ∧
    res.power_to_weight = (r.horsepower : ℚ) / r.engine_size := by
  obtain ⟨-, -, hca, hmp, hpw⟩ := predictS_ok_shape st cy r res h
  have hyi : cy - r.year ≠ -1 := by omega
  have hden : ((cy - r.year : ℤ) : ℚ) + 1 ≠ 0 := by
    intro h0
    apply hyi
    have h1 : ((cy - r.year : ℤ) : ℚ) = -1 := by linarith
    exact_mod_cast h1
  refine ⟨rfl, ?_, ?_, hca, hmp, hpw⟩
  · simp only [engineerRow, qdiv]
    rw [if_neg hden]
  · simp only [engineerRow, qdiv]
    rw [if_neg hes]

/-- C7 witness: the concrete fixture's reported features match the exact
formulas. -/
theorem c7_derived_features_witness :
    egRes.car_age = 2025 - egCar.year ∧
    egRes.mileage_per_year = egCar.mileage / (((2025 - egCar.year : ℤ) : ℚ) + 1) ∧
    egRes.power_to_weight = (egCar.horsepower : ℚ) / egCar.engine_size :=
  ⟨(c7_derived_features egTrained 2025 egCar egRes (by decide)
      (by norm_num [egCar]) rfl).2.2.2.1,
   (c7_derived_features egTrained 2025 egCar egRes (by decide)
      (by norm_num [egCar]) rfl).2.2.2.2.1,
   (c7_derived_features egTrained 2025 egCar egRes (by decide)
      (by norm_num [egCar]) rfl).2.2.2.2.2⟩

/-- The executable code-point comparison agrees with the lexicographic
order on character lists (`¬ bs < as` form of core `List.le`). -/
theorem charListLe_iff_not_lt : ∀ as bs : List Char, charListLe as bs = true ↔ ¬ List.lt bs as
  | [], bs => by
    constructor
    · intro _ h
      nomatch h
    · intro _
      rfl
  | a :: as, [] => by
    constructor
    · intro hfalse
      simp [charListLe] at hfalse
    · intro hn
      exact absurd (List.lt.nil a as) hn
  | a :: as, b :: bs => by
    by_cases h1 : a < b
    · constructor
      · intro _ h
        cases h with
        | head _ _ hba => exact absurd hba (asymm h1)
        | tail hnba hnab _ => exact hnab h1
      · intro _
        simp [charListLe, h1]
    · by_cases h2 : b < a
      · constructor
        · intro hfalse
          simp [charListLe, h1, h2] at hfalse
        · intro hn
          exact absurd (List.lt.head _ _ h2) hn
      · constructor
        · intro hle h
          cases h with
          | head _ _ hba => exact h2 hba
          | tail _ _ hl =>
            exact ((charListLe_iff_not_lt as bs).mp
              (by simpa [charListLe, h1, h2] using hle)) hl
        · intro hn
          simp only [charListLe, if_neg h1, if_neg h2]
          exact (charListLe_iff_not_lt as bs).mpr (fun hl => hn (List.lt.tail h2 h1 hl))

/-- The executable code-point comparison agrees with the standard linear
order on `String`. -/
theorem strLe_iff (a b : String) : strLe a b = true ↔ a ≤ b := by
  constructor
  · intro h
    rw [String.le_iff_toList_le, ← not_lt]
    intro hlt
    exact (charListLe_iff_not_lt a.toList b.toList).mp h
      ((List.lt_iff_lex_lt _ _).mpr hlt)
  · intro h
    rw [String.le_iff_toList_le, ← not_lt] at h
    exact (charListLe_iff_not_lt a.toList b.toList).mpr
      (fun hl => h ((List.lt_iff_lex_lt _ _).mp hl))

/-- Totality of the executable comparison. -/
theorem strLe_total (a b : String) : strLe a b = true ∨ strLe b a = true :=
  (le_total a b).imp (strLe_iff a b).mpr (strLe_iff b a).mpr

/-- Transitivity of the executable comparison. -/
theorem strLe_trans (a b c : String) (h1 : strLe a b = true) (h2 : strLe b c = true) :
    strLe a c = true :=
  (strLe_iff a c).mpr (le_trans ((strLe_iff a b).mp h1) ((strLe_iff b c).mp h2))

/-!
C1.  Claim: encoding tables are dense, zero-based, assigned in
**first-seen** order over the training corpus, and stable across predict
calls.  The code fits `sklearn.LabelEncoder`, whose `classes_` is
`np.unique(values)` — the distinct values in ascending sorted order, not
first-seen order — so the order part of the claim fails; density,
zero-basedness and stability hold.
-/

/-- C1 counterexample: preprocessing a training corpus whose brand column
reads `["Toyota", "BMW"]` (first-seen order: Toyota first) fits the brand
table `["BMW", "Toyota"]` and gives `"Toyota"` the code 1, not the code 0
that first-seen assignment would demand. -/
theorem c1_counterexample :
    dictGet (preprocessS initialState 2025 [egCarToyota, egCar] true).2.label_encoders "brand"
      = some ⟨["BMW", "Toyota"]⟩ ∧
    egCarToyota.brand = "Toyota" ∧ egCar.brand = "BMW" ∧
    leTransformE ⟨["BMW", "Toyota"]⟩ "Toyota" = .ok 1 ∧
    ¬ leTransformE ⟨["BMW", "Toyota"]⟩ "Toyota" = .ok 0 := by
  decide

/-- C1 (amended): the encoding table a training fit builds is the distinct
values of that field's training column in ascending (code-point
lexicographic) order — not first-seen order; codes are dense and
zero-based (every code `0..n-1` is the code of some value seen in
training), every value seen in training keeps one fixed code that the
training-mode and inference-mode transforms agree on, and no `predict`
call ever changes the fitted tables. -/
theorem c1_sorted_dense_codes (vs : List String) (v : String) (hv : v ∈ vs) :
    List.Sorted (fun a b : String => a ≤ b) (leFit vs).classes ∧
    (leFit vs).classes.Nodup ∧
    (∀ w, w ∈ (leFit vs).classes ↔ w ∈ vs) ∧
    leTransformE (leFit vs) v = .ok ((leFit vs).classes.indexOf v) ∧
    (leFit vs).classes.indexOf v < (leFit vs).classes.length ∧
    leTransformInfer (leFit vs) v = .ok ((leFit vs).classes.indexOf v) ∧
    (∀ k, k < (leFit vs).classes.length →
      ∃ w, w ∈ vs ∧ leTransformE (leFit vs) w = .ok k) ∧
    (∀ st cy r, (predictS st cy r).2.label_encoders = st.label_encoders) := by
  haveI : IsTotal String (fun a b => strLe a b = true) := ⟨strLe_total⟩
  haveI : IsTrans String (fun a b => strLe a b = true) := ⟨strLe_trans⟩
  have hperm : (leFit vs).classes.Perm vs.dedup := List.perm_insertionSort _ _
  have hsortS : List.Sorted (fun a b => strLe a b = true) (leFit vs).classes :=
    List.sorted_insertionSort _ _
  have hsort : List.Sorted (fun a b : String => a ≤ b) (leFit vs).classes :=
    List.Pairwise.imp (fun h => (strLe_iff _ _).mp h) hsortS
  have hnodup : (leFit vs).classes.Nodup := hperm.nodup_iff.mpr (List.nodup_dedup vs)
  have hmem : ∀ w, w ∈ (leFit vs).classes ↔ w ∈ vs := fun w =>
    hperm.mem_iff.trans List.mem_dedup
  have hvmem : v ∈ (leFit vs).classes := (hmem v).mpr hv
  have htr : leTransformE (leFit vs) v = .ok ((leFit vs).classes.indexOf v) := by
    simp [leTransformE, hvmem]
  refine ⟨hsort, hnodup, hmem, htr, List.indexOf_lt_length.mpr hvmem,
    (leTransformInfer_mem _ _ hvmem).trans htr, ?_, ?_⟩
  · intro k hk
    refine ⟨(leFit vs).classes[k], (hmem _).mp (List.getElem_mem hk), ?_⟩
    have hkmem : (leFit vs).classes[k] ∈ (leFit vs).classes := List.getElem_mem hk
    simp [leTransformE, hkmem, List.indexOf_getElem hnodup k hk]
  · intro st cy r
    rw [predictS_snd]

/-- C1 witness: the amended statement at a concrete two-value corpus. -/
theorem c1_sorted_dense_codes_witness :
    leTransformInfer (leFit ["Toyota", "BMW"]) "Toyota"
      = .ok ((leFit ["Toyota", "BMW"]).classes.indexOf "Toyota") :=
  (c1_sorted_dense_codes ["Toyota", "BMW"] "Toyota" (by decide)).2.2.2.2.2.1

/-!
C2.  Claim: a failing sub-component fit during `train()` publishes no
partial model — the observable trained state afterwards is exactly what it
was before the call.  The method mutates `self` attribute by attribute as
it goes (lines 133, 156, 162, 165), so a failure of the ensemble fit
(line 171) leaves the refitted encoder tables, the feature names, the
refitted scaler and the fresh unfitted ensemble already in place.  Only
the trained flag, the metrics and the training timestamp are still the
old ones.
-/

/-- C2 counterexample: injecting an ensemble-fit failure (the spec's own
example, "ensemble fit diverges") into a training run over a two-record
corpus makes `train` raise — yet the state observable afterwards differs
from the state before the call: the encoder tables and the feature names
were already replaced. -/
theorem c2_counterexample :
    (trainS egGbFit true [0, 1] "t" 2025 egCorpus initialState).1 = .error .valueError ∧
    (trainS egGbFit true [0, 1] "t" 2025 egCorpus initialState).2.label_encoders
      ≠ initialState.label_encoders ∧
    (trainS egGbFit true [0, 1] "t" 2025 egCorpus initialState).2.feature_names
      ≠ initialState.feature_names := by
  decide

/-- C2 (amended): when any sub-step of `train()` raises, the training
attempt fails and the trained flag, the metrics and the training
timestamp are still exactly the ones from before the call (so a failed
attempt never marks the model trained or alters its published metrics);
the sub-component state already refitted before the failing step —
encoder tables, feature names, scaler, ensemble object — is however
retained, not rolled back. -/
theorem c2_training_failure_keeps_flag (gbFit : List (List ℚ) → List ℚ → List ℚ → ℚ)
    (fitRaises : Bool) (perm : List ℕ) (now : String) (cy : ℤ)
    (corpus : List (Row × ℚ)) (st : ModelState) (e : PyErr)
    (h : (trainS gbFit fitRaises perm now cy corpus st).1 = .error e) :
    (trainS gbFit fitRaises perm now cy corpus st).2.is_trained = st.is_trained ∧
    (trainS gbFit fitRaises perm now cy corpus st).2.metrics = st.metrics ∧
    (trainS gbFit fitRaises perm now cy corpus st).2.last_trained = st.last_trained := by
  rcases hEq : trainS gbFit fitRaises perm now cy corpus st with ⟨res, stA⟩
  rw [hEq] at h
  simp only [trainS] at hEq
  repeat' split at hEq
  all_goals injection hEq with h1 h2
  all_goals subst h2
  all_goals try exact ⟨rfl, rfl, rfl⟩
  all_goals subst h1
  all_goals simp at h

/-- C2 witness: the amended statement at the concrete failing run. -/
theorem c2_training_failure_keeps_flag_witness :
    (trainS egGbFit true [0, 1] "t" 2025 egCorpus initialState).2.is_trained
        = initialState.is_trained ∧
    (trainS egGbFit true [0, 1] "t" 2025 egCorpus initialState).2.metrics
        = initialState.metrics :=
  ⟨(c2_training_failure_keeps_flag egGbFit true [0, 1] "t" 2025 egCorpus initialState
      .valueError (by decide)).1,
   (c2_training_failure_keeps_flag egGbFit true [0, 1] "t" 2025 egCorpus initialState
      .valueError (by decide)).2.1⟩
